import Mathlib

/-!
Verification development for the movement-sequence builder
(src/movement_sequence_builder.py).

The Python module has two layers: a pure kinematic timing calculator
(calculate_linear_time / calculate_rotational_time) and a sequence engine
(add_movement / display / clear_sequence / execute_sequence) that drives an
actuator (the pitop DriveController).  Real arithmetic is modelled by ℚ.
Actuator calls, sleeps and the index-bearing console reports are modelled as
an explicit event trace; actuator failure is modelled by an oracle
(failAt : Nat → Bool) telling, for each 1-based movement index, whether the
dispatch of that movement raises.
-/

namespace MovementSequenceBuilder

/-- INCHES_TO_METERS = 0.0254 (class constant). -/
def INCHES_TO_METERS : ℚ := 254 / 10000

/-- METERS_TO_INCHES = 1 / INCHES_TO_METERS (class constant). -/
def METERS_TO_INCHES : ℚ := 1 / INCHES_TO_METERS

/-- MAX_LINEAR_VELOCITY_MS = 1.0 (class constant). -/
def MAX_LINEAR_VELOCITY_MS : ℚ := 1

/-- MAX_ANGULAR_VELOCITY_DEG_S = 360.0 (class constant). -/
def MAX_ANGULAR_VELOCITY_DEG_S : ℚ := 360

/-- MIN_SPEED_FACTOR = 0.1 (class constant). -/
def MIN_SPEED_FACTOR : ℚ := 1 / 10

/-- MAX_EXECUTION_TIME = 60.0 (class constant). -/
def MAX_EXECUTION_TIME : ℚ := 60

/-- TIME_SAFETY_MARGIN = 1.2 (class constant). -/
def TIME_SAFETY_MARGIN : ℚ := 12 / 10

/-- Method inches_to_meters: inches * INCHES_TO_METERS. -/
def inches_to_meters (inches : ℚ) : ℚ := inches * INCHES_TO_METERS

/-- Method calculate_linear_time (lines 81-119): clamp the speed factor to
[MIN_SPEED_FACTOR, 1.0], compute velocity, convert the distance to meters,
divide (guarded by velocity > 0, else 0), multiply by the safety margin and
clamp to MAX_EXECUTION_TIME. -/
def calculate_linear_time (distance_inches : ℚ) (speed_factor : ℚ) : ℚ :=
  let speed_factor := max MIN_SPEED_FACTOR (min 1 speed_factor)
  let velocity_ms := speed_factor * MAX_LINEAR_VELOCITY_MS
  let distance_meters := inches_to_meters distance_inches
  let time_base := if velocity_ms > 0 then distance_meters / velocity_ms else 0
  let time_with_margin := time_base * TIME_SAFETY_MARGIN
  min time_with_margin MAX_EXECUTION_TIME

/-- Method calculate_rotational_time (lines 121-161): like the linear case but
on the absolute value of the angle, against MAX_ANGULAR_VELOCITY_DEG_S. -/
def calculate_rotational_time (angle_degrees : ℚ) (speed_factor : ℚ) : ℚ :=
  let speed_factor := max MIN_SPEED_FACTOR (min 1 speed_factor)
  let angle_abs := |angle_degrees|
  let angular_velocity_deg_s := speed_factor * MAX_ANGULAR_VELOCITY_DEG_S
  let time_base := if angular_velocity_deg_s > 0 then angle_abs / angular_velocity_deg_s else 0
  let time_with_margin := time_base * TIME_SAFETY_MARGIN
  min time_with_margin MAX_EXECUTION_TIME

/-- The five direction strings accepted by get_direction. -/
inductive Direction : Type
  | forward
  | backward
  | left
  | right
  | rotate
deriving DecidableEq, Repr

/-- A movement dict: keys direction, speed, distance (distance holds the angle
in degrees when direction is rotate). -/
structure Movement : Type where
  direction : Direction
  speed : ℚ
  distance : ℚ
deriving DecidableEq, Repr

/-- Observable steps of execution: each drive call with the arguments the code
actually passes, each sleep(0.5), and the index-bearing console reports. -/
inductive Event : Type
  | printTime (timeSeconds : ℚ)
  | dispatchForward (speedFactor distanceMeters : ℚ)
  | dispatchBackward (speedFactor distanceMeters : ℚ)
  | dispatchLeft (speedFactor turnRadius distanceMeters : ℚ)
  | dispatchRight (speedFactor turnRadius distanceMeters : ℚ)
  | dispatchRotate (angle maxSpeedFactor timeToTake : ℚ)
  | sleepHalf
  | stop
  | reportCompleted (index : Nat)
  | reportError (index : Nat)
  | reportNothing
deriving DecidableEq, Repr

/-- Whether an event is an actuator dispatch (one of the five drive motion
calls). -/
def isDispatch : Event → Bool
  | .dispatchForward _ _ => true
  | .dispatchBackward _ _ => true
  | .dispatchLeft _ _ _ => true
  | .dispatchRight _ _ _ => true
  | .dispatchRotate _ _ _ => true
  | _ => false

/-- Whether an event is a drive.stop() call. -/
def isStop : Event → Bool
  | .stop => true
  | _ => false

/-- Whether an event is a sleep(0.5). -/
def isSleep : Event → Bool
  | .sleepHalf => true
  | _ => false

/-- Whether an event is the per-index error report of execute_sequence. -/
def isErrorReport : Event → Bool
  | .reportError _ => true
  | _ => false

/-- Whether an event is the printed timing estimate of execute_movement. -/
def isPrintTime : Event → Bool
  | .printTime _ => true
  | _ => false

/-- The time argument an actuator dispatch carries, if any: among the five
drive calls in execute_movement, only drive.rotate receives a time
(time_to_take); the four linear calls have no time parameter. -/
def dispatchTimeArg : Event → Option ℚ
  | .dispatchRotate _ _ timeToTake => some timeToTake
  | _ => none

/-- The dispatch event execute_movement issues for a movement: forward and
backward with (speed_factor, distance_meters); left and right additionally
with turn_radius=0.3; rotate with (angle, max_speed_factor, time_to_take). -/
def dispatchOf (movement : Movement) : Event :=
  match movement.direction with
  | .forward => .dispatchForward movement.speed (inches_to_meters movement.distance)
  | .backward => .dispatchBackward movement.speed (inches_to_meters movement.distance)
  | .left => .dispatchLeft movement.speed (3 / 10) (inches_to_meters movement.distance)
  | .right => .dispatchRight movement.speed (3 / 10) (inches_to_meters movement.distance)
  | .rotate => .dispatchRotate movement.distance movement.speed
      (calculate_rotational_time movement.distance movement.speed)

/-- The duration execute_movement computes for a movement before dispatching
it: the rotational time for rotate, the linear time otherwise. -/
def timeOf (movement : Movement) : ℚ :=
  match movement.direction with
  | .rotate => calculate_rotational_time movement.distance movement.speed
  | _ => calculate_linear_time movement.distance movement.speed

/-- Method execute_movement (lines 356-415).  In every branch the code first
computes time_to_take via the timing calculator (and prints it), then issues
the drive call; only the rotate branch passes time_to_take to the drive.  If
the dispatch raises (failAt index), the except block prints the error, calls
drive.stop() and re-raises, so the trailing sleep(0.5) is skipped; the Bool
result records whether the call returned normally. -/
def execute_movement (failAt : Nat → Bool) (movement : Movement) (index : Nat) :
    List Event × Bool :=
  match movement.direction with
  | .forward =>
    let distance_meters := inches_to_meters movement.distance
    let time_to_take := calculate_linear_time movement.distance movement.speed
    if failAt index then
      ([.printTime time_to_take, .dispatchForward movement.speed distance_meters, .stop], false)
    else
      ([.printTime time_to_take, .dispatchForward movement.speed distance_meters, .sleepHalf],
        true)
  | .backward =>
    let distance_meters := inches_to_meters movement.distance
    let time_to_take := calculate_linear_time movement.distance movement.speed
    if failAt index then
      ([.printTime time_to_take, .dispatchBackward movement.speed distance_meters, .stop], false)
    else
      ([.printTime time_to_take, .dispatchBackward movement.speed distance_meters, .sleepHalf],
        true)
  | .left =>
    let distance_meters := inches_to_meters movement.distance
    let time_to_take := calculate_linear_time movement.distance movement.speed
    if failAt index then
      ([.printTime time_to_take,
        .dispatchLeft movement.speed (3 / 10) distance_meters, .stop], false)
    else
      ([.printTime time_to_take,
        .dispatchLeft movement.speed (3 / 10) distance_meters, .sleepHalf], true)
  | .right =>
    let distance_meters := inches_to_meters movement.distance
    let time_to_take := calculate_linear_time movement.distance movement.speed
    if failAt index then
      ([.printTime time_to_take,
        .dispatchRight movement.speed (3 / 10) distance_meters, .stop], false)
    else
      ([.printTime time_to_take,
        .dispatchRight movement.speed (3 / 10) distance_meters, .sleepHalf], true)
  | .rotate =>
    let time_to_take := calculate_rotational_time movement.distance movement.speed
    if failAt index then
      ([.printTime time_to_take,
        .dispatchRotate movement.distance movement.speed time_to_take, .stop], false)
    else
      ([.printTime time_to_take,
        .dispatchRotate movement.distance movement.speed time_to_take, .sleepHalf], true)

/-- The for-loop body of execute_sequence (lines 430-440), iterating from the
1-based index of the first remaining movement: on success, print the
per-movement completion and sleep(0.5) between movements; on an exception,
print the error with the failing index, call drive.stop() and break. -/
def execute_from (failAt : Nat → Bool) (index : Nat) : List Movement → List Event
  | [] => []
  | movement :: rest =>
    let result := execute_movement failAt movement index
    if result.2 then
      result.1 ++ [.reportCompleted index, .sleepHalf] ++ execute_from failAt (index + 1) rest
    else
      result.1 ++ [.reportError index, .stop]

/-- Method execute_sequence (lines 417-447) as a trace: on an empty sequence,
print the nothing-to-execute message and return; otherwise run the loop from
index 1 and finish with the unconditional safety drive.stop(). -/
def execute_sequence_trace (failAt : Nat → Bool) (movements : List Movement) : List Event :=
  if movements.isEmpty then [.reportNothing]
  else execute_from failAt 1 movements ++ [.stop]

/-- Method execute_sequence in state-passing form.  The method body reads
self.movements and issues drive calls but contains no assignment to
self.movements, so the movement list after the call is the one before it,
whatever the actuator does. -/
def execute_sequence_py (failAt : Nat → Bool) (movements : List Movement) :
    List Movement × List Event :=
  (movements, execute_sequence_trace failAt movements)

/-- Method clear_sequence (lines 472-475): self.movements = []. -/
def clear_sequence (_movements : List Movement) : List Movement := []

/-- Method get_speed (lines 196-222): scan the operator's numeric answers for
the first speed_percent with MIN_SPEED_FACTOR*100 <= speed_percent <= 100 and
return speed_percent/100.  The Python loop re-prompts forever on invalid
input (out-of-range values and non-numeric entries alike); an exhausted input
list models a session that never supplies a valid value, hence none. -/
def get_speed_from : List ℚ → Option ℚ
  | [] => none
  | speed_percent :: rest =>
    if MIN_SPEED_FACTOR * 100 ≤ speed_percent ∧ speed_percent ≤ 100 then
      some (speed_percent / 100)
    else get_speed_from rest

/-- Method get_distance (lines 223-264): for rotate, the first nonzero answer
is returned as the angle; otherwise the first strictly positive answer is
returned as the distance in inches.  Invalid answers re-prompt, as in
get_speed_from. -/
def get_distance_from (direction : Direction) : List ℚ → Option ℚ
  | [] => none
  | distance :: rest =>
    match direction with
    | .rotate =>
      if distance ≠ 0 then some distance else get_distance_from direction rest
    | _ =>
      if 0 < distance then some distance else get_distance_from direction rest

/-- Method add_movement (lines 266-294): get_direction always returns one of
the five directions (its loop accepts nothing else), so the direction is taken
as given; the speed and distance prompts are run on their input streams and
the movement dict is appended only when both return.  A none from either
prompt models the session looping forever, in which case nothing is ever
appended. -/
def add_movement (movements : List Movement) (direction : Direction)
    (speedInputs distanceInputs : List ℚ) : List Movement :=
  match get_speed_from speedInputs with
  | none => movements
  | some speed =>
    match get_distance_from direction distanceInputs with
    | none => movements
    | some distance => movements ++ [⟨direction, speed, distance⟩]

/-- The operations that mutate self.movements: add_movement and
clear_sequence. -/
inductive BuilderOp : Type
  | add (direction : Direction) (speedInputs distanceInputs : List ℚ)
  | clear

/-- Apply one mutating operation to the movement list. -/
def applyOp (movements : List Movement) : BuilderOp → List Movement
  | .add direction speedInputs distanceInputs =>
      add_movement movements direction speedInputs distanceInputs
  | .clear => clear_sequence movements

/-- The movement list after a session of mutating operations, starting from
the empty list created in the constructor. -/
def applyOps (ops : List BuilderOp) : List Movement :=
  ops.foldl applyOp []

/-- The domain constraints the prompts enforce before a movement is stored:
speed factor in [MIN_SPEED_FACTOR, 1], magnitude strictly positive for the
linear directions and nonzero for rotate. -/
def validMovement (movement : Movement) : Bool :=
  decide (MIN_SPEED_FACTOR ≤ movement.speed) && decide (movement.speed ≤ 1) &&
    (match movement.direction with
     | .rotate => decide (movement.distance ≠ 0)
     | _ => decide (0 < movement.distance))

/-- The trace of a run in which every dispatch succeeds, starting at the given
1-based index: per movement, the timing print, the dispatch, the
sleep(0.5) inside execute_movement, the completion report, and the
sleep(0.5) of the execute_sequence loop. -/
def successTrace (index : Nat) : List Movement → List Event
  | [] => []
  | movement :: rest =>
    [.printTime (timeOf movement), dispatchOf movement, .sleepHalf,
     .reportCompleted index, .sleepHalf] ++ successTrace (index + 1) rest

/-! ## General lemmas about the embedding -/

/-- Whatever the direction, execute_movement prints the computed duration,
issues the movement's dispatch, and ends with drive.stop() on failure or the
in-method sleep(0.5) on success. -/
theorem execute_movement_eq (failAt : Nat → Bool) (m : Movement) (i : Nat) :
    execute_movement failAt m i =
      if failAt i then ([.printTime (timeOf m), dispatchOf m, .stop], false)
      else ([.printTime (timeOf m), dispatchOf m, .sleepHalf], true) := by
  cases m with
  | mk d s x => cases d <;> rfl

/-- On a nonempty sequence, execute_sequence runs the loop from index 1 and
appends the final safety drive.stop(). -/
theorem execute_sequence_trace_cons (failAt : Nat → Bool) (m : Movement)
    (rest : List Movement) :
    execute_sequence_trace failAt (m :: rest) =
      execute_from failAt 1 (m :: rest) ++ [.stop] := rfl

/-- When no dispatch fails, the execution loop produces exactly the success
trace. -/
theorem execute_from_no_fail (ms : List Movement) : ∀ i : Nat,
    execute_from (fun _ => false) i ms = successTrace i ms := by
  induction ms with
  | nil => intro i; rfl
  | cons m rest ih =>
    intro i
    rw [execute_from, execute_movement_eq]
    simp [successTrace, ih]

/-- A fully successful run sleeps exactly twice per movement: once inside
execute_movement and once between loop iterations. -/
theorem countP_isSleep_successTrace (ms : List Movement) : ∀ i : Nat,
    (successTrace i ms).countP isSleep = 2 * ms.length := by
  induction ms with
  | nil => intro i; rfl
  | cons m rest ih =>
    intro i
    rcases m with ⟨d, sp, di⟩
    cases d <;>
      simp [successTrace, dispatchOf, List.countP_cons, isSleep, ih (i + 1)] <;> omega

/-- A fully successful run prints exactly one freshly computed duration per
movement, in sequence order. -/
theorem filter_isPrintTime_successTrace (ms : List Movement) : ∀ i : Nat,
    (successTrace i ms).filter isPrintTime = ms.map (fun m => .printTime (timeOf m)) := by
  induction ms with
  | nil => intro i; rfl
  | cons m rest ih =>
    intro i
    rcases m with ⟨d, sp, di⟩
    cases d <;> simp [successTrace, dispatchOf, timeOf, isPrintTime, ih (i + 1)]

/-- For a speed factor already inside [MIN_SPEED_FACTOR, 1], the clamp is the
identity and the guard holds, so the linear time is the margin-inflated base
time capped at MAX_EXECUTION_TIME. -/
theorem calculate_linear_time_eq (d s : ℚ) (h1 : MIN_SPEED_FACTOR ≤ s) (h2 : s ≤ 1) :
    calculate_linear_time d s =
      min (inches_to_meters d / (s * MAX_LINEAR_VELOCITY_MS) * TIME_SAFETY_MARGIN)
        MAX_EXECUTION_TIME := by
  have hclamp : max MIN_SPEED_FACTOR (min 1 s) = s := by
    rw [min_eq_right h2, max_eq_right h1]
  have hpos : (0:ℚ) < s * MAX_LINEAR_VELOCITY_MS := by
    have h0 : (0:ℚ) < MIN_SPEED_FACTOR := by norm_num [MIN_SPEED_FACTOR]
    have hs : (0:ℚ) < s := lt_of_lt_of_le h0 h1
    norm_num [MAX_LINEAR_VELOCITY_MS, hs]
  simp only [calculate_linear_time, hclamp, if_pos hpos]

/-- The clamped speed factor is positive, so the guarded division is taken and
the linear time of a nonnegative distance is nonnegative. -/
theorem calculate_linear_time_nonneg (d s : ℚ) (hd : 0 ≤ d) :
    0 ≤ calculate_linear_time d s := by
  have hpos : (0:ℚ) < max MIN_SPEED_FACTOR (min 1 s) * MAX_LINEAR_VELOCITY_MS := by
    have h0 : (0:ℚ) < MIN_SPEED_FACTOR := by norm_num [MIN_SPEED_FACTOR]
    have hmax : (0:ℚ) < max MIN_SPEED_FACTOR (min 1 s) :=
      lt_of_lt_of_le h0 (le_max_left _ _)
    norm_num [MAX_LINEAR_VELOCITY_MS, hmax]
  simp only [calculate_linear_time, if_pos hpos]
  refine le_min (mul_nonneg (div_nonneg ?_ hpos.le) (by norm_num [TIME_SAFETY_MARGIN]))
    (by norm_num [MAX_EXECUTION_TIME])
  have hc : (0:ℚ) ≤ INCHES_TO_METERS := by norm_num [INCHES_TO_METERS]
  simp only [inches_to_meters]
  positivity

/-- The rotational time is nonnegative for every angle and every speed factor,
because it divides the absolute angle by a positive angular velocity. -/
theorem calculate_rotational_time_nonneg (a s : ℚ) :
    0 ≤ calculate_rotational_time a s := by
  have hpos : (0:ℚ) < max MIN_SPEED_FACTOR (min 1 s) * MAX_ANGULAR_VELOCITY_DEG_S := by
    have h0 : (0:ℚ) < MIN_SPEED_FACTOR := by norm_num [MIN_SPEED_FACTOR]
    have hmax : (0:ℚ) < max MIN_SPEED_FACTOR (min 1 s) :=
      lt_of_lt_of_le h0 (le_max_left _ _)
    norm_num [MAX_ANGULAR_VELOCITY_DEG_S, hmax]
  simp only [calculate_rotational_time, if_pos hpos]
  refine le_min (mul_nonneg (div_nonneg (abs_nonneg _) hpos.le)
    (by norm_num [TIME_SAFETY_MARGIN])) (by norm_num [MAX_EXECUTION_TIME])

/-- A speed answer accepted by get_speed yields a factor in
[MIN_SPEED_FACTOR, 1]. -/
theorem get_speed_from_some (inputs : List ℚ) (s : ℚ)
    (h : get_speed_from inputs = some s) : MIN_SPEED_FACTOR ≤ s ∧ s ≤ 1 := by
  induction inputs with
  | nil => simp [get_speed_from] at h
  | cons p rest ih =>
    by_cases hp : MIN_SPEED_FACTOR * 100 ≤ p ∧ p ≤ 100
    · rw [get_speed_from, if_pos hp] at h
      obtain rfl : p / 100 = s := by simpa using h
      constructor
      · rw [MIN_SPEED_FACTOR] at hp ⊢
        linarith [hp.1]
      · linarith [hp.2]
    · rw [get_speed_from, if_neg hp] at h
      exact ih h

/-- The one-step unfolding of get_distance, separated by whether the direction
is rotate. -/
theorem get_distance_from_cons (direction : Direction) (x : ℚ) (rest : List ℚ) :
    get_distance_from direction (x :: rest) =
      if direction = .rotate then
        (if x ≠ 0 then some x else get_distance_from direction rest)
      else
        (if 0 < x then some x else get_distance_from direction rest) := by
  cases direction <;> simp [get_distance_from]

/-- A distance answer accepted by get_distance is nonzero for rotate and
strictly positive for the linear directions. -/
theorem get_distance_from_some (direction : Direction) (inputs : List ℚ) (d : ℚ)
    (h : get_distance_from direction inputs = some d) :
    (direction = .rotate → d ≠ 0) ∧ (direction ≠ .rotate → 0 < d) := by
  induction inputs with
  | nil =>
    cases direction <;> simp [get_distance_from] at h
  | cons x rest ih =>
    rw [get_distance_from_cons] at h
    by_cases hdir : direction = .rotate
    · rw [if_pos hdir] at h
      by_cases hx : x ≠ 0
      · rw [if_pos hx] at h
        obtain rfl : x = d := by simpa using h
        exact ⟨fun _ => hx, fun hcon => absurd hdir hcon⟩
      · rw [if_neg hx] at h
        exact ih h
    · rw [if_neg hdir] at h
      by_cases hx : 0 < x
      · rw [if_pos hx] at h
        obtain rfl : x = d := by simpa using h
        exact ⟨fun hcon => absurd hcon hdir, fun _ => hx⟩
      · rw [if_neg hx] at h
        exact ih h

/-- add_movement preserves validity of every stored movement: whatever it
appends went through the speed and distance prompts. -/
theorem add_movement_valid (movements : List Movement) (direction : Direction)
    (speedInputs distanceInputs : List ℚ)
    (hmov : ∀ m ∈ movements, validMovement m = true) :
    ∀ m ∈ add_movement movements direction speedInputs distanceInputs,
      validMovement m = true := by
  intro m hm
  rw [add_movement] at hm
  cases hsp : get_speed_from speedInputs with
  | none => rw [hsp] at hm; exact hmov m hm
  | some s =>
    rw [hsp] at hm
    cases hdi : get_distance_from direction distanceInputs with
    | none => rw [hdi] at hm; exact hmov m hm
    | some d =>
      rw [hdi] at hm
      rcases List.mem_append.mp hm with hold | hnew
      · exact hmov m hold
      · obtain rfl : m = (⟨direction, s, d⟩ : Movement) := by simpa using hnew
        have hs := get_speed_from_some speedInputs s hsp
        have hd := get_distance_from_some direction distanceInputs d hdi
        rw [validMovement]
        simp only [Bool.and_eq_true, decide_eq_true_eq]
        refine ⟨⟨hs.1, hs.2⟩, ?_⟩
        cases hdircase : direction
        case rotate => simpa using hd.1 hdircase
        all_goals simpa using hd.2 (by simp [hdircase])

/-- Folding any run of add/clear operations over a list of valid movements
keeps every stored movement valid. -/
theorem foldl_applyOp_valid (ops : List BuilderOp) :
    ∀ start : List Movement, (∀ m ∈ start, validMovement m = true) →
      ∀ m ∈ ops.foldl applyOp start, validMovement m = true := by
  induction ops with
  | nil => intro start h; simpa using h
  | cons op rest ih =>
    intro start h
    rw [List.foldl_cons]
    apply ih
    cases op with
    | add direction speedInputs distanceInputs =>
      exact add_movement_valid start direction speedInputs distanceInputs h
    | clear =>
      intro m hm
      simp [applyOp, clear_sequence] at hm

/-! ## Claim theorems -/

/-- C1 (counterexample): executing three forward movements where the dispatch
of movement #2 fails, drive.stop() is called three times — once in
execute_movement's handler, once in execute_sequence's handler and once after
the loop — not exactly once as the claim states. -/
theorem stop_count_three_counterexample :
    (execute_sequence_trace (fun i => i == 2)
      [⟨.forward, 1, 12⟩, ⟨.forward, 1, 12⟩, ⟨.forward, 1, 12⟩]).countP isStop = 3 ∧
    (execute_sequence_trace (fun i => i == 2)
      [⟨.forward, 1, 12⟩, ⟨.forward, 1, 12⟩, ⟨.forward, 1, 12⟩]).countP isStop ≠ 1 := by
  constructor <;> decide

/-- C1 (amended): for any 3-movement sequence whose second dispatch fails, the
trace is exactly: movement #1 dispatched and completed, movement #2 dispatched
and failing, drive.stop() twice immediately after the failure (inner and
outer handler) plus the final safety stop, the failing index 2 reported, and
movement #3 never dispatched — no retry and no skip-and-continue. -/
theorem fail_stop_on_second_of_three (m1 m2 m3 : Movement) :
    execute_sequence_trace (fun i => i == 2) [m1, m2, m3] =
      [.printTime (timeOf m1), dispatchOf m1, .sleepHalf, .reportCompleted 1, .sleepHalf,
       .printTime (timeOf m2), dispatchOf m2, .stop, .reportError 2, .stop, .stop] ∧
    (execute_sequence_trace (fun i => i == 2) [m1, m2, m3]).filter isDispatch =
      [dispatchOf m1, dispatchOf m2] ∧
    (execute_sequence_trace (fun i => i == 2) [m1, m2, m3]).countP isStop = 3 ∧
    (execute_sequence_trace (fun i => i == 2) [m1, m2, m3]).filter isErrorReport =
      [.reportError 2] := by
  have htr : execute_sequence_trace (fun i => i == 2) [m1, m2, m3] =
      [.printTime (timeOf m1), dispatchOf m1, .sleepHalf, .reportCompleted 1, .sleepHalf,
       .printTime (timeOf m2), dispatchOf m2, .stop, .reportError 2, .stop, .stop] := by
    simp [execute_sequence_trace, execute_from, execute_movement_eq]
  refine ⟨htr, ?_, ?_, ?_⟩ <;>
    rw [htr] <;>
    rcases m1 with ⟨d1, s1, x1⟩ <;>
    rcases m2 with ⟨d2, s2, x2⟩ <;>
    cases d1 <;> cases d2 <;>
    simp [List.filter, List.countP, List.countP.go, dispatchOf, isDispatch, isStop,
      isErrorReport]

/-- C2 (counterexample): executing a single forward movement issues an
actuator dispatch that carries no timeSeconds argument at all, refuting the
claim that every dispatch carries the pre-computed bound. -/
theorem linear_dispatch_no_time_counterexample :
    Event.dispatchForward 1 (inches_to_meters 12) ∈
      execute_sequence_trace (fun _ => false) [⟨.forward, 1, 12⟩] ∧
    isDispatch (Event.dispatchForward 1 (inches_to_meters 12)) = true ∧
    dispatchTimeArg (Event.dispatchForward 1 (inches_to_meters 12)) = none := by
  refine ⟨?_, rfl, rfl⟩
  simp [execute_sequence_trace, execute_from, execute_movement]

/-- C2 (amended): for every movement, execute_movement computes the bounded
duration via the timing calculator and prints it immediately before the
dispatch, but only the rotate dispatch carries that duration as its
time_to_take argument; the four linear dispatches carry no time bound. -/
theorem duration_precomputed_rotate_only (failAt : Nat → Bool) (m : Movement) (i : Nat) :
    (execute_movement failAt m i).1.take 2 = [.printTime (timeOf m), dispatchOf m] ∧
    dispatchTimeArg (dispatchOf m) =
      (match m.direction with
       | .rotate => some (timeOf m)
       | _ => none) := by
  constructor
  · rw [execute_movement_eq]
    by_cases h : failAt i <;> simp [h]
  · rcases m with ⟨d, s, x⟩
    cases d <;> simp [dispatchOf, timeOf, dispatchTimeArg]

/-- C3 (counterexample): calculate_linear_time of a negative distance is
negative — the code never takes an absolute value on the linear path, so the
function is not nonnegative on every input pair. -/
theorem negative_distance_negative_time_counterexample :
    calculate_linear_time (-12) 1 < 0 := by
  norm_num [calculate_linear_time, inches_to_meters, MIN_SPEED_FACTOR,
    MAX_LINEAR_VELOCITY_MS, INCHES_TO_METERS, TIME_SAFETY_MARGIN, MAX_EXECUTION_TIME,
    min_def, max_def]

/-- C3 (amended): calculate_linear_time is nonnegative for every nonnegative
distance and every speed factor, and calculate_rotational_time is nonnegative
for every angle and every speed factor (it divides the absolute angle); both
are total pure functions of their arguments. -/
theorem timing_nonneg_amended (d s a s2 : ℚ) (hd : 0 ≤ d) :
    0 ≤ calculate_linear_time d s ∧ 0 ≤ calculate_rotational_time a s2 :=
  ⟨calculate_linear_time_nonneg d s hd, calculate_rotational_time_nonneg a s2⟩

/-- C3 witness: the amended nonnegativity at distance 3, speed 1/2, angle -90,
speed 5. -/
theorem timing_nonneg_amended_witness :
    (0:ℚ) ≤ 3 ∧ 0 ≤ calculate_linear_time 3 (1/2) ∧
      0 ≤ calculate_rotational_time (-90) 5 :=
  ⟨by norm_num, (timing_nonneg_amended 3 (1/2) (-90) 5 (by norm_num)).1,
    (timing_nonneg_amended 3 (1/2) (-90) 5 (by norm_num)).2⟩

/-- C4: for speed factors in [MIN_SPEED_FACTOR, 1] and positive distances,
calculate_linear_time is non-increasing in the speed factor, non-decreasing in
the distance, and never exceeds MAX_EXECUTION_TIME. -/
theorem linear_time_mono (d d2 s s2 : ℚ) (hd : 0 < d) (hdd : d ≤ d2)
    (hs1 : MIN_SPEED_FACTOR ≤ s) (hs2 : s ≤ 1)
    (hs1' : MIN_SPEED_FACTOR ≤ s2) (hs2' : s2 ≤ 1) (hss : s ≤ s2) :
    calculate_linear_time d s2 ≤ calculate_linear_time d s ∧
    calculate_linear_time d s ≤ calculate_linear_time d2 s ∧
    calculate_linear_time d s ≤ MAX_EXECUTION_TIME := by
  have h0 : (0:ℚ) < MIN_SPEED_FACTOR := by norm_num [MIN_SPEED_FACTOR]
  have hs : (0:ℚ) < s := lt_of_lt_of_le h0 hs1
  have hVpos : (0:ℚ) < MAX_LINEAR_VELOCITY_MS := by norm_num [MAX_LINEAR_VELOCITY_MS]
  have hbpos : (0:ℚ) < s * MAX_LINEAR_VELOCITY_MS := mul_pos hs hVpos
  have hMnn : (0:ℚ) ≤ TIME_SAFETY_MARGIN := by norm_num [TIME_SAFETY_MARGIN]
  have hnum : (0:ℚ) ≤ inches_to_meters d := by
    have hc : (0:ℚ) < INCHES_TO_METERS := by norm_num [INCHES_TO_METERS]
    simp only [inches_to_meters]
    positivity
  have hnum2 : inches_to_meters d ≤ inches_to_meters d2 := by
    have hc : (0:ℚ) < INCHES_TO_METERS := by norm_num [INCHES_TO_METERS]
    simp only [inches_to_meters]
    nlinarith
  rw [calculate_linear_time_eq d s hs1 hs2, calculate_linear_time_eq d s2 hs1' hs2',
    calculate_linear_time_eq d2 s hs1 hs2]
  refine ⟨?_, ?_, min_le_right _ _⟩
  · have hbc : s * MAX_LINEAR_VELOCITY_MS ≤ s2 * MAX_LINEAR_VELOCITY_MS :=
      mul_le_mul_of_nonneg_right hss hVpos.le
    have key := div_le_div_of_nonneg_left hnum hbpos hbc
    exact min_le_min (mul_le_mul_of_nonneg_right key hMnn) le_rfl
  · have key := div_le_div_of_nonneg_right hnum2 hbpos.le
    exact min_le_min (mul_le_mul_of_nonneg_right key hMnn) le_rfl

/-- C4 witness: the monotonicity bounds at distances 1 and 2 and speed factors
1/2 and 1. -/
theorem linear_time_mono_witness :
    calculate_linear_time 1 1 ≤ calculate_linear_time 1 (1/2) ∧
    calculate_linear_time 1 (1/2) ≤ calculate_linear_time 2 (1/2) ∧
    calculate_linear_time 1 (1/2) ≤ MAX_EXECUTION_TIME :=
  linear_time_mono 1 2 (1/2) 1 (by norm_num) (by norm_num)
    (by norm_num [MIN_SPEED_FACTOR]) (by norm_num) (by norm_num [MIN_SPEED_FACTOR])
    (by norm_num) (by norm_num)

/-- C5: the rotational time of a nonzero angle is the same as that of its
negation at every speed factor, because the calculation starts with
abs(angle_degrees). -/
theorem rotational_time_sign_independent (a s : ℚ) (_h : a ≠ 0) :
    calculate_rotational_time a s = calculate_rotational_time (-a) s := by
  simp [calculate_rotational_time, abs_neg]

/-- C5 witness: sign-independence at angle 90 and speed factor 1/2. -/
theorem rotational_time_sign_independent_witness :
    (90:ℚ) ≠ 0 ∧
    calculate_rotational_time 90 (1/2) = calculate_rotational_time (-90) (1/2) :=
  ⟨by norm_num, rotational_time_sign_independent 90 (1/2) (by norm_num)⟩

/-- C6: execute_sequence never mutates the movement list (for every failure
pattern, success and failure alike), replaying the same unmodified sequence
produces the identical ordered trace, and each run of a successful execution
recomputes and prints every movement's duration afresh from the movement
itself (one timing print per movement, in order — nothing is cached). -/
theorem replay_unchanged_and_deterministic (failAt : Nat → Bool) (ms : List Movement) :
    (execute_sequence_py failAt ms).1 = ms ∧
    (execute_sequence_py failAt (execute_sequence_py failAt ms).1).2 =
      (execute_sequence_py failAt ms).2 ∧
    (execute_sequence_trace (fun _ => false) ms).filter isPrintTime =
      ms.map (fun m => .printTime (timeOf m)) := by
  refine ⟨rfl, rfl, ?_⟩
  cases ms with
  | nil => rfl
  | cons m rest =>
    rw [execute_sequence_trace_cons, execute_from_no_fail, List.filter_append,
      filter_isPrintTime_successTrace]
    simp [List.filter, isPrintTime]

/-- C7: starting from the empty sequence of program start, after any run of
add and clear operations every stored movement has a speed factor in
[MIN_SPEED_FACTOR, 1], a strictly positive magnitude for the linear
directions, and a nonzero angle for rotate — out-of-domain prompt answers are
re-prompted and never stored. -/
theorem sequence_movements_valid (ops : List BuilderOp) :
    ∀ m ∈ applyOps ops, validMovement m = true := by
  intro m hm
  refine foldl_applyOp_valid ops [] ?_ m hm
  intro m' hm'
  simp at hm'

/-- C7 witness: one add operation with speed answer 50 and distance answer 12
stores the movement (forward, 1/2, 12), and it is valid. -/
theorem sequence_movements_valid_witness :
    (⟨.forward, 50 / 100, 12⟩ : Movement) ∈
      applyOps [.add .forward [50] [12]] ∧
    validMovement (⟨.forward, 50 / 100, 12⟩ : Movement) = true := by
  have hmem : (⟨.forward, 50 / 100, 12⟩ : Movement) ∈
      applyOps [.add .forward [50] [12]] := by
    simp [applyOps, applyOp, add_movement, get_speed_from, get_distance_from,
      MIN_SPEED_FACTOR]
    norm_num
  exact ⟨hmem, sequence_movements_valid [.add .forward [50] [12]] _ hmem⟩

/-- C8: clearing after any execution (so in particular after a successful one)
leaves the sequence empty, and executing the cleared (empty) sequence is a
no-op: it reports that there is nothing to execute, dispatches no movement
and raises no error. -/
theorem clear_then_execute_is_noop (failAt : Nat → Bool) (ms : List Movement) :
    clear_sequence (execute_sequence_py failAt ms).1 = [] ∧
    execute_sequence_trace failAt (clear_sequence ms) = [.reportNothing] ∧
    (execute_sequence_trace failAt (clear_sequence ms)).countP isDispatch = 0 ∧
    (execute_sequence_trace failAt (clear_sequence ms)).countP isErrorReport = 0 :=
  ⟨rfl, rfl, rfl, rfl⟩

/-- C9: below the MAX_EXECUTION_TIME cap and inside the valid speed range,
the linear time is exactly base * TIME_SAFETY_MARGIN with
base = distanceInches * INCHES_TO_METERS / (speedFactor * MAX_LINEAR_VELOCITY_MS);
in particular calculate_linear_time 12 1 = 0.36576 and
calculate_rotational_time 90 0.5 = 0.6. -/
theorem linear_time_formula_below_cap (d s : ℚ) (_hd : 0 < d)
    (hs1 : MIN_SPEED_FACTOR ≤ s) (hs2 : s ≤ 1)
    (hcap : d * INCHES_TO_METERS / (s * MAX_LINEAR_VELOCITY_MS) * TIME_SAFETY_MARGIN ≤
      MAX_EXECUTION_TIME) :
    calculate_linear_time d s =
      d * INCHES_TO_METERS / (s * MAX_LINEAR_VELOCITY_MS) * TIME_SAFETY_MARGIN ∧
    calculate_linear_time 12 1 = 36576 / 100000 ∧
    calculate_rotational_time 90 (1/2) = 3/5 := by
  refine ⟨?_, ?_, ?_⟩
  · rw [calculate_linear_time_eq d s hs1 hs2]
    simp only [inches_to_meters]
    exact min_eq_left hcap
  · norm_num [calculate_linear_time, inches_to_meters, MIN_SPEED_FACTOR,
      MAX_LINEAR_VELOCITY_MS, INCHES_TO_METERS, TIME_SAFETY_MARGIN, MAX_EXECUTION_TIME,
      min_def, max_def]
  · norm_num [calculate_rotational_time, MIN_SPEED_FACTOR, MAX_ANGULAR_VELOCITY_DEG_S,
      TIME_SAFETY_MARGIN, MAX_EXECUTION_TIME, min_def, max_def]

/-- C9 witness: the exact-formula conclusion at distance 12 and speed factor 1,
where the cap is far from reached. -/
theorem linear_time_formula_below_cap_witness :
    (0:ℚ) < 12 ∧ MIN_SPEED_FACTOR ≤ (1:ℚ) ∧ (1:ℚ) ≤ 1 ∧
    12 * INCHES_TO_METERS / ((1:ℚ) * MAX_LINEAR_VELOCITY_MS) * TIME_SAFETY_MARGIN ≤
      MAX_EXECUTION_TIME ∧
    calculate_linear_time 12 1 =
      12 * INCHES_TO_METERS / ((1:ℚ) * MAX_LINEAR_VELOCITY_MS) * TIME_SAFETY_MARGIN := by
  have h1 : (0:ℚ) < 12 := by norm_num
  have h2 : MIN_SPEED_FACTOR ≤ (1:ℚ) := by norm_num [MIN_SPEED_FACTOR]
  have h3 : (1:ℚ) ≤ 1 := le_refl 1
  have h4 : 12 * INCHES_TO_METERS / ((1:ℚ) * MAX_LINEAR_VELOCITY_MS) * TIME_SAFETY_MARGIN ≤
      MAX_EXECUTION_TIME := by
    norm_num [INCHES_TO_METERS, MAX_LINEAR_VELOCITY_MS, TIME_SAFETY_MARGIN,
      MAX_EXECUTION_TIME]
  exact ⟨h1, h2, h3, h4, (linear_time_formula_below_cap 12 1 h1 h2 h3 h4).1⟩

/-- C10 (counterexample): executing a single successful movement produces two
sleep(0.5) events, not the one fixed settle delay per completed movement the
claim states. -/
theorem settle_delay_counterexample :
    (execute_sequence_trace (fun _ => false) [⟨.forward, 1, 12⟩]).countP isSleep = 2 ∧
    (execute_sequence_trace (fun _ => false) [⟨.forward, 1, 12⟩]).countP isSleep ≠ 1 := by
  constructor <;> decide

/-- C10 (amended): during a fully successful execution, every completed
movement is followed by exactly two 0.5-second delays — one at the end of
execute_movement and one between loop iterations in execute_sequence — for a
total of 2 * n sleep(0.5) calls over n movements. -/
theorem two_settle_delays_per_movement (ms : List Movement) :
    (execute_sequence_trace (fun _ => false) ms).countP isSleep = 2 * ms.length := by
  cases ms with
  | nil => rfl
  | cons m rest =>
    rw [execute_sequence_trace_cons, execute_from_no_fail, List.countP_append,
      countP_isSleep_successTrace]
    simp [List.countP, List.countP.go, isSleep]

end MovementSequenceBuilder
